import Mathlib

/-!
Shallow embedding of the PGwallah payment service's reconciliation and
ledger-posting logic (`services/payment/app/api/payments.py`,
`app/models/payment.py`, `app/integrations/razorpay_client.py`,
`app/utils/events.py`), together with theorems settling the specification's
claims about it.

Monetary amounts are rationals: the source manipulates Python `Decimal`
values, and every operation the embedded code performs on amounts
(division by 100, comparison, summation) is exact rational arithmetic.
Database commit semantics follows SQL transaction atomicity: a commit that
violates the `payments.razorpay_payment_id` UNIQUE constraint persists
nothing (the session's pending rows are discarded and the caught exception
surfaces as a 500 response in the generic handler).
-/

namespace PGwallah

/-- `PaymentStatus` enum (`app/models/payment.py`, lines 17–26). -/
inductive PaymentStatus where
  | created
  | pending
  | authorized
  | captured
  | failed
  | cancelled
  | refunded
  | partially_refunded
  deriving DecidableEq, Repr

/-- A `payment_intents` row (`PaymentIntent` model). Fields the embedded
logic never consults (description, metadata, dates, timestamps) are
omitted; ids are abstract naturals standing for uuid4 values. -/
structure PaymentIntent where
  id : Nat
  razorpay_order_id : Option String
  tenant_id : Nat
  amount : ℚ
  currency : String
  purpose : String
  status : PaymentStatus
  deriving DecidableEq, Repr

/-- A `payments` row (`Payment` model). `razorpay_payment_id` carries a
UNIQUE constraint (model lines 151–156). -/
structure Payment where
  razorpay_payment_id : String
  razorpay_order_id : String
  payment_intent_id : Nat
  tenant_id : Nat
  amount : ℚ
  currency : String
  status : PaymentStatus
  method : Option String
  fee : Option ℚ
  tax : Option ℚ
  deriving DecidableEq, Repr

/-- A `ledger_entries` row (`Ledger` model): exactly one of `debit`/`credit`
is set by the posting code. -/
structure LedgerEntry where
  tenant_id : Nat
  transaction_id : String
  account : String
  debit : Option ℚ
  credit : Option ℚ
  description : String
  reference_type : String
  deriving DecidableEq, Repr

/-- A `subscriptions` row (`Subscription` model), restricted to the fields
the webhook path touches. -/
structure Subscription where
  razorpay_subscription_id : String
  status : String
  total_count : Option Nat
  paid_count : Nat
  remaining_count : Option Int
  deriving DecidableEq, Repr

/-- A `rent_payments` row (`RentPayment` model, dummy/no-gateway flow). -/
structure RentPayment where
  payment_intent_id : Nat
  tenant_id : Nat
  room_no : String
  amount : ℚ
  status : PaymentStatus
  deriving DecidableEq, Repr

/-- A domain event handed to `publish_payment_event` by a background task
(recorded once the task actually runs, i.e. after a successful response). -/
structure DomainEvent where
  event_type : String
  payment_intent_id : Nat
  deriving DecidableEq, Repr

/-- The persistent state the payment endpoints read and write. -/
structure DBState where
  intents : List PaymentIntent
  payments : List Payment
  ledger : List LedgerEntry
  subscriptions : List Subscription
  rent_payments : List RentPayment
  published : List DomainEvent
  deriving DecidableEq, Repr

/-- `payload.payment.entity` of a decoded webhook body: the event-reported
payment record. `amount`, `fee`, `tax` are gateway minor units (paise). -/
structure PaymentData where
  id : String
  order_id : Option String
  status : String
  amount : Int
  currency : String
  method : Option String
  fee : Option Int
  tax : Option Int
  deriving DecidableEq, Repr

/-- `payload.subscription.entity` of a decoded webhook body. -/
structure SubscriptionData where
  id : Option String
  deriving DecidableEq, Repr

/-- A decoded webhook body (`json.loads(payload)` in `razorpay_webhook`). -/
structure WebhookData where
  event : String
  payment : PaymentData
  subscription : SubscriptionData
  deriving DecidableEq, Repr

/-- HTTP-level outcome of the webhook endpoint: 200 success envelope,
401 invalid signature, 500 processing failure. -/
inductive WebhookOutcome where
  | success
  | unauthorized
  | error
  deriving DecidableEq, Repr

/-- The `status_mapping` dict in `process_payment_webhook` (lines 248–252);
`status_mapping.get(s, PaymentStatus.PENDING)` is `(status_mapping s).getD .pending`. -/
def status_mapping (s : String) : Option PaymentStatus :=
  if s = "authorized" then some .authorized
  else if s = "captured" then some .captured
  else if s = "failed" then some .failed
  else none

/-- The purpose → revenue-account dict in `create_ledger_entries`
(lines 377–381), with its `.get(purpose, "other_revenue")` default. -/
def revenue_account (purpose : String) : String :=
  if purpose = "rent" then "rent_revenue"
  else if purpose = "deposit" then "security_deposits"
  else if purpose = "mess" then "mess_revenue"
  else "other_revenue"

/-- `create_ledger_entries(payment, payment_intent, db)` (lines 356–400):
the two rows added to the session; the caller appends them to the ledger. -/
def create_ledger_entries (payment : Payment) (intent : PaymentIntent) :
    List LedgerEntry :=
  let transaction_id := "PAY_" ++ payment.razorpay_payment_id
  let cash_entry : LedgerEntry :=
    { tenant_id := payment.tenant_id
      transaction_id := transaction_id
      account := "cash_and_bank"
      debit := some payment.amount
      credit := none
      description := "Payment received for " ++ intent.purpose
      reference_type := "payment" }
  let revenue_entry : LedgerEntry :=
    { tenant_id := payment.tenant_id
      transaction_id := transaction_id
      account := revenue_account intent.purpose
      debit := none
      credit := some payment.amount
      description := "Revenue from " ++ intent.purpose
      reference_type := "payment" }
  [cash_entry, revenue_entry]

/-- Mutate the first element satisfying `p` (the ORM mutates the single
object returned by `scalar_one_or_none`). -/
def update_first {α : Type} (p : α → Bool) (f : α → α) : List α → List α
  | [] => []
  | x :: rest => if p x then f x :: rest else x :: update_first p f rest

/-- The Payment row `process_payment_webhook` constructs for an
authorized/captured event (lines 259–272): amounts converted from paise,
fee/tax dropped when falsy (absent or zero). -/
def mk_webhook_payment (pd : PaymentData) (oid : String)
    (intent : PaymentIntent) : Payment :=
  { razorpay_payment_id := pd.id
    razorpay_order_id := oid
    payment_intent_id := intent.id
    tenant_id := intent.tenant_id
    amount := (pd.amount : ℚ) / 100
    currency := pd.currency
    status := (status_mapping pd.status).getD .pending
    method := pd.method
    fee := match pd.fee with
           | some f => if f = 0 then none else some ((f : ℚ) / 100)
           | none => none
    tax := match pd.tax with
           | some t => if t = 0 then none else some ((t : ℚ) / 100)
           | none => none }

/-- `process_payment_webhook(payment_data, webhook_data, background_tasks, db)`
(lines 222–306). Early returns (missing order id, unknown intent) leave the
state untouched and the endpoint still answers success. A commit that hits
the `razorpay_payment_id` UNIQUE constraint persists nothing and surfaces
as the 500 outcome; background tasks scheduled in that request never run,
so no domain event is recorded. -/
def process_payment_webhook (pd : PaymentData) (db : DBState) :
    DBState × WebhookOutcome :=
  match pd.order_id with
  | none => (db, .success)
  | some oid =>
    match db.intents.find? (fun i => i.razorpay_order_id == some oid) with
    | none => (db, .success)
    | some intent =>
      let new_status := (status_mapping pd.status).getD .pending
      if pd.status = "authorized" ∨ pd.status = "captured" then
        let payment : Payment := mk_webhook_payment pd oid intent
        if db.payments.any (fun p => p.razorpay_payment_id == pd.id) then
          (db, .error)
        else
          ({ db with
              payments := db.payments ++ [payment]
              ledger := db.ledger ++ create_ledger_entries payment intent
              intents := update_first (fun i => i.razorpay_order_id == some oid)
                (fun i => { i with status := new_status }) db.intents
              published := db.published ++
                [{ event_type := if new_status = .captured then "payment.succeeded"
                                 else "payment.failed"
                   payment_intent_id := intent.id }] }, .success)
      else
        ({ db with
            intents := update_first (fun i => i.razorpay_order_id == some oid)
              (fun i => { i with status := new_status }) db.intents
            published := db.published ++
              [{ event_type := if new_status = .captured then "payment.succeeded"
                               else "payment.failed"
                 payment_intent_id := intent.id }] }, .success)

/-- The effective `process_subscription_webhook` (the SECOND definition of
that name, lines 622–630): a no-op stub whose body is `pass`. Python name
resolution makes this later definition shadow the earlier one, so this is
what `razorpay_webhook` actually invokes. -/
def process_subscription_webhook (wh : WebhookData) (db : DBState) :
    DBState × WebhookOutcome :=
  let _ := wh
  (db, .success)

/-- The earlier `process_subscription_webhook` definition (lines 309–353),
shadowed by the stub above and therefore never called at runtime. -/
def process_subscription_webhook_shadowed (wh : WebhookData) (db : DBState) :
    DBState × WebhookOutcome :=
  match wh.subscription.id with
  | none => (db, .success)
  | some sid =>
    match db.subscriptions.find? (fun s => s.razorpay_subscription_id == sid) with
    | none => (db, .success)
    | some _ =>
      let upd (s : Subscription) : Subscription :=
        if wh.event = "subscription.activated" then { s with status := "active" }
        else if wh.event = "subscription.charged" then
          let paid := s.paid_count + 1
          { s with
              paid_count := paid
              remaining_count :=
                match s.total_count with
                | some t => if t = 0 then s.remaining_count
                            else some ((t : Int) - (paid : Int))
                | none => s.remaining_count }
        else if wh.event = "subscription.cancelled" then { s with status := "cancelled" }
        else s
      ({ db with
          subscriptions := update_first
            (fun s => s.razorpay_subscription_id == sid) upd db.subscriptions },
        .success)

/-- `RazorpayClient.verify_webhook_signature` (`razorpay_client.py` 239–265).
`hmac_sha256_hex secret payload` stands for the standard library's
`hmac.new(secret, payload, sha256).hexdigest()` (an external primitive);
`hmac.compare_digest` decides equality of the two hex strings. An empty
(unconfigured) secret makes verification fail. -/
def verify_webhook_signature (hmac_sha256_hex : String → String → String)
    (webhook_secret : String) (payload signature : String) : Bool :=
  if webhook_secret = "" then false
  else signature == hmac_sha256_hex webhook_secret payload

/-- `razorpay_webhook` endpoint (lines 165–219). `is_production` is
`settings.is_production`: signature verification runs only under it.
`parse` is `json.loads` (external library); `none` means the body fails to
decode, which the generic except turns into the 500 outcome. -/
def razorpay_webhook (hmac_sha256_hex : String → String → String)
    (webhook_secret : String) (is_production : Bool)
    (payload signature : String) (parse : String → Option WebhookData)
    (db : DBState) : DBState × WebhookOutcome :=
  if is_production &&
      !(verify_webhook_signature hmac_sha256_hex webhook_secret payload signature) then
    (db, .unauthorized)
  else
    match parse payload with
    | none => (db, .error)
    | some wh =>
      if wh.event = "payment.authorized" ∨ wh.event = "payment.captured" ∨
          wh.event = "payment.failed" then
        process_payment_webhook wh.payment db
      else if wh.event = "subscription.activated" ∨ wh.event = "subscription.charged" ∨
          wh.event = "subscription.cancelled" then
        process_subscription_webhook wh db
      else
        (db, .success)

/-- A gateway payment record as returned by `razorpay_client.fetch_payment`
(used by the `/verify` endpoint); `amount`, `fee`, `tax` in paise, `fee`
and `tax` defaulted to 0 by `.get(..., 0)`. -/
structure FetchedPayment where
  amount : Int
  currency : String
  status : String
  method : Option String
  fee : Int
  tax : Int
  deriving DecidableEq, Repr

/-- HTTP-level outcome of the `/verify` endpoint: 200, 400 bad signature or
missing fields, 404 unknown intent, 500 gateway fetch / commit failure. -/
inductive VerifyOutcome where
  | success
  | bad_request
  | not_found
  | server_error
  deriving DecidableEq, Repr

/-- `verify_payment` endpoint (lines 514–619). `signature_valid` is the
result of `razorpay_client.verify_payment_signature` (gateway SDK,
external); `fetched` the result of `razorpay_client.fetch_payment`
(network call), `.error` meaning the fetch raised. A commit that violates
the `razorpay_payment_id` UNIQUE constraint is rolled back inside the
generic except and answered with 500. -/
def verify_payment (order_id payment_id signature : Option String)
    (signature_valid : Bool) (fetched : Except String FetchedPayment)
    (db : DBState) : DBState × VerifyOutcome :=
  match order_id, payment_id, signature with
  | some oid, some pid, some _sig =>
    if !signature_valid then (db, .bad_request)
    else
      match db.intents.find? (fun i => i.razorpay_order_id == some oid) with
      | none => (db, .not_found)
      | some intent =>
        match fetched with
        | .error _ => (db, .server_error)
        | .ok pd =>
          let payment : Payment :=
            { razorpay_payment_id := pid
              razorpay_order_id := oid
              payment_intent_id := intent.id
              tenant_id := intent.tenant_id
              amount := (pd.amount : ℚ) / 100
              currency := pd.currency
              status := .captured
              method := pd.method
              fee := some ((pd.fee : ℚ) / 100)
              tax := some ((pd.tax : ℚ) / 100) }
          if db.payments.any (fun p => p.razorpay_payment_id == pid) then
            (db, .server_error)
          else
            ({ db with
                payments := db.payments ++ [payment]
                ledger := db.ledger ++ create_ledger_entries payment intent
                intents := update_first (fun i => i.razorpay_order_id == some oid)
                  (fun i => { i with status := .captured }) db.intents
                published := db.published ++
                  [{ event_type := "payment.succeeded"
                     payment_intent_id := intent.id }] }, .success)
  | _, _, _ => (db, .bad_request)

/-- Request body of the dummy rent endpoint (`CreateDummyRentPaymentRequest`). -/
structure DummyRentRequest where
  tenant_id : Nat
  room_no : String
  amount : ℚ
  deriving DecidableEq, Repr

/-- `create_dummy_rent_payment` endpoint (lines 637–713). `new_intent_id`
stands for the uuid4 primary key assigned to the new intent. The source
leaves ledger posting as a TODO comment, so no `Ledger` rows are added. -/
def create_dummy_rent_payment (req : DummyRentRequest) (new_intent_id : Nat)
    (db : DBState) : DBState × RentPayment :=
  let intent : PaymentIntent :=
    { id := new_intent_id
      razorpay_order_id := none
      tenant_id := req.tenant_id
      amount := req.amount
      currency := "INR"
      purpose := "rent"
      status := .captured }
  let rent_payment : RentPayment :=
    { payment_intent_id := new_intent_id
      tenant_id := req.tenant_id
      room_no := req.room_no
      amount := req.amount
      status := .captured }
  ({ db with
      intents := db.intents ++ [intent]
      rent_payments := db.rent_payments ++ [rent_payment]
      published := db.published ++
        [{ event_type := "rent.payment.recorded"
           payment_intent_id := new_intent_id }] }, rent_payment)

/-- `EventPublisher.publish_event` (`app/utils/events.py` 47–95): a failure
of the underlying broker publish is logged and re-raised. `broker` stands
for the aio_pika exchange publish (external messaging library), `.error`
meaning the publish raised. -/
def EventPublisher.publish_event (broker : String → String → Except String Unit)
    (event_type payload : String) : Except String Unit :=
  match broker event_type payload with
  | .ok _ => .ok ()
  | .error e => .error e

/-- `publish_payment_event` (`app/utils/events.py` 102–113): wraps
`publish_event` in try/except and does not re-raise ("Don't re-raise to
avoid breaking the main flow"). -/
def publish_payment_event (broker : String → String → Except String Unit)
    (event_type payload : String) : Except String Unit :=
  match EventPublisher.publish_event broker event_type payload with
  | .ok _ => .ok ()
  | .error _ => .ok ()

/-- Running the background publish task scheduled by a request after its
transaction has committed: the task receives no database handle, and its
outcome is the swallowed `publish_payment_event` result. -/
def run_scheduled_publish (broker : String → String → Except String Unit)
    (event_type payload : String) (db : DBState) :
    DBState × Except String Unit :=
  (db, publish_payment_event broker event_type payload)

/-- Python's `int(·)` on a `Decimal`: truncation toward zero. -/
def pyint (q : ℚ) : Int := if 0 ≤ q then ⌊q⌋ else ⌈q⌉

/-- `RazorpayClient._rupees_to_paise` (`razorpay_client.py` 47–49):
`int(amount * 100)`. -/
def rupees_to_paise (amount : ℚ) : Int := pyint (amount * 100)

/-- `RazorpayClient._paise_to_rupees` (`razorpay_client.py` 51–53):
`Decimal(amount) / 100`. -/
def paise_to_rupees (amount : Int) : ℚ := (amount : ℚ) / 100

/-- Payments carrying a given external payment id. -/
def payments_with_id (pid : String) (db : DBState) : List Payment :=
  db.payments.filter (fun p => p.razorpay_payment_id == pid)

/-- Ledger entries belonging to one transaction id. -/
def entries_with_txn (t : String) (db : DBState) : List LedgerEntry :=
  db.ledger.filter (fun e => e.transaction_id == t)

/-- Sum of debits over a list of ledger entries (`NULL` counts as 0). -/
def debit_total (es : List LedgerEntry) : ℚ :=
  (es.map (fun e => e.debit.getD 0)).sum

/-- Sum of credits over a list of ledger entries (`NULL` counts as 0). -/
def credit_total (es : List LedgerEntry) : ℚ :=
  (es.map (fun e => e.credit.getD 0)).sum

/-- Sequential processing of a list of payment-webhook deliveries. -/
def process_deliveries (evs : List PaymentData) (db : DBState) : DBState :=
  evs.foldl (fun s e => (process_payment_webhook e s).1) db

/-- The empty database, used as a concrete starting state. -/
def emptyDB : DBState :=
  { intents := []
    payments := []
    ledger := []
    subscriptions := []
    rent_payments := []
    published := [] }

/-- `update_first` rewrites the element `find?` locates; when the update
preserves the predicate, the located element afterwards is its image. -/
theorem find?_update_first {α : Type} (p : α → Bool) (f : α → α)
    (l : List α) (x : α) (hx : l.find? p = some x) (hf : p (f x) = true) :
    (update_first p f l).find? p = some (f x) := by
  induction l with
  | nil => simp at hx
  | cons a rest ih =>
    by_cases h : p a
    · rw [List.find?_cons_of_pos _ h] at hx
      injection hx with hx
      subst hx
      rw [update_first, if_pos h, List.find?_cons_of_pos _ hf]
    · rw [List.find?_cons_of_neg _ h] at hx
      rw [update_first, if_neg h, List.find?_cons_of_neg _ h]
      exact ih hx

/-- C2: every invocation of the ledger-posting step produces exactly two
entries sharing one transaction id: a debit to `cash_and_bank` for the full
payment amount and a credit for the same amount to the revenue account
derived from the intent's purpose (rent → rent_revenue,
deposit → security_deposits, mess → mess_revenue, any other purpose →
other_revenue); consequently the debit total equals the credit total for
that transaction id. -/
theorem create_ledger_entries_balanced (payment : Payment) (intent : PaymentIntent) :
    ∃ d c : LedgerEntry,
      create_ledger_entries payment intent = [d, c] ∧
      d.transaction_id = "PAY_" ++ payment.razorpay_payment_id ∧
      c.transaction_id = d.transaction_id ∧
      d.account = "cash_and_bank" ∧
      d.debit = some payment.amount ∧ d.credit = none ∧
      c.account = revenue_account intent.purpose ∧
      c.credit = some payment.amount ∧ c.debit = none ∧
      debit_total [d, c] = credit_total [d, c] ∧
      revenue_account "rent" = "rent_revenue" ∧
      revenue_account "deposit" = "security_deposits" ∧
      revenue_account "mess" = "mess_revenue" ∧
      (intent.purpose ≠ "rent" → intent.purpose ≠ "deposit" →
        intent.purpose ≠ "mess" → revenue_account intent.purpose = "other_revenue") := by
  refine ⟨_, _, rfl, rfl, rfl, rfl, rfl, rfl, rfl, rfl, rfl, ?_, rfl, rfl, rfl, ?_⟩
  · simp [debit_total, credit_total]
  · intro h1 h2 h3
    simp [revenue_account, h1, h2, h3]

/-- Witness for C2 at a concrete payment and intent (one whose purpose is
outside the mapped set, exercising the `other_revenue` default). -/
theorem create_ledger_entries_balanced_witness :
    ∃ d c : LedgerEntry,
      create_ledger_entries
          { razorpay_payment_id := "pay_7", razorpay_order_id := "order_7"
            payment_intent_id := 7, tenant_id := 3, amount := 250
            currency := "INR", status := .captured, method := none
            fee := none, tax := none }
          { id := 7, razorpay_order_id := some "order_7", tenant_id := 3
            amount := 250, currency := "INR", purpose := "maintenance"
            status := .captured } = [d, c] ∧
      d.transaction_id = "PAY_" ++ "pay_7" ∧
      c.transaction_id = d.transaction_id ∧
      d.account = "cash_and_bank" ∧
      d.debit = some 250 ∧ d.credit = none ∧
      c.account = revenue_account "maintenance" ∧
      c.credit = some 250 ∧ c.debit = none ∧
      debit_total [d, c] = credit_total [d, c] ∧
      revenue_account "rent" = "rent_revenue" ∧
      revenue_account "deposit" = "security_deposits" ∧
      revenue_account "mess" = "mess_revenue" ∧
      ("maintenance" ≠ "rent" → "maintenance" ≠ "deposit" →
        "maintenance" ≠ "mess" → revenue_account "maintenance" = "other_revenue") :=
  create_ledger_entries_balanced
    { razorpay_payment_id := "pay_7", razorpay_order_id := "order_7"
      payment_intent_id := 7, tenant_id := 3, amount := 250
      currency := "INR", status := .captured, method := none
      fee := none, tax := none }
    { id := 7, razorpay_order_id := some "order_7", tenant_id := 3
      amount := 250, currency := "INR", purpose := "maintenance"
      status := .captured }

/-- C7: for every fixed-point decimal amount that is a whole number of
paise, converting rupees to paise (`_rupees_to_paise`, `int(amount * 100)`)
and back (`_paise_to_rupees`) returns exactly the original value. -/
theorem rupees_paise_round_trip (q : ℚ) (h : ∃ n : Int, q * 100 = (n : ℚ)) :
    paise_to_rupees (rupees_to_paise q) = q := by
  obtain ⟨n, hn⟩ := h
  have h1 : rupees_to_paise q = n := by
    unfold rupees_to_paise pyint
    rw [hn]
    split
    · exact Int.floor_intCast n
    · exact Int.ceil_intCast n
  rw [h1]
  unfold paise_to_rupees
  rw [← hn]
  field_simp

/-- Witness for C7 at ₹123.45 (12345 paise). -/
theorem rupees_paise_round_trip_witness :
    (∃ n : Int, (12345 / 100 : ℚ) * 100 = (n : ℚ)) ∧
      paise_to_rupees (rupees_to_paise (12345 / 100 : ℚ)) = (12345 / 100 : ℚ) :=
  ⟨⟨12345, by norm_num⟩,
    rupees_paise_round_trip (12345 / 100 : ℚ) ⟨12345, by norm_num⟩⟩

/-- C8: a failure of the underlying broker publish never surfaces from the
scheduled `publish_payment_event` task and never changes database state:
for every broker behaviour the task returns normally with the state it was
given, and the state is identical to what any other broker behaviour
(including an always-succeeding one) would leave. -/
theorem publish_failure_is_isolated
    (broker alt_broker : String → String → Except String Unit)
    (event_type payload : String) (db : DBState) :
    run_scheduled_publish broker event_type payload db = (db, .ok ()) ∧
    (run_scheduled_publish broker event_type payload db).1 =
      (run_scheduled_publish alt_broker event_type payload db).1 := by
  constructor
  · unfold run_scheduled_publish publish_payment_event EventPublisher.publish_event
    cases broker event_type payload <;> rfl
  · rfl

/-- C9: whenever the `/verify` endpoint passes signature verification, finds
an intent for the order, and the gateway fetch returns a record `pd` — of
any status (even "failed") and any amount (even one differing from the
intent's) — the created Payment and the intent's status are set to
CAPTURED and the call succeeds. -/
theorem verify_payment_captures_unconditionally
    (oid pid sig : String) (pd : FetchedPayment) (db : DBState)
    (intent : PaymentIntent)
    (hintent : db.intents.find? (fun i => i.razorpay_order_id == some oid) = some intent)
    (hfresh : db.payments.any (fun p => p.razorpay_payment_id == pid) = false) :
    ∃ db' : DBState,
      verify_payment (some oid) (some pid) (some sig) true (.ok pd) db =
        (db', .success) ∧
      (∃ p ∈ db'.payments, p.razorpay_payment_id = pid ∧
        p.status = PaymentStatus.captured) ∧
      db'.intents.find? (fun i => i.razorpay_order_id == some oid) =
        some { intent with status := PaymentStatus.captured } := by
  have hpred := List.find?_some hintent
  simp only [verify_payment, hintent, hfresh, Bool.not_true, Bool.false_eq_true,
    if_false]
  refine ⟨_, rfl, ⟨{ razorpay_payment_id := pid, razorpay_order_id := oid
                     payment_intent_id := intent.id, tenant_id := intent.tenant_id
                     amount := (pd.amount : ℚ) / 100, currency := pd.currency
                     status := .captured, method := pd.method
                     fee := some ((pd.fee : ℚ) / 100)
                     tax := some ((pd.tax : ℚ) / 100) }, by simp, rfl, rfl⟩, ?_⟩
  exact find?_update_first _ _ _ _ hintent hpred

/-- Intent used by the C9 witness. -/
def intentC9 : PaymentIntent :=
  { id := 4, razorpay_order_id := some "order_4", tenant_id := 2, amount := 500
    currency := "INR", purpose := "rent", status := .pending }

/-- Database used by the C9 witness. -/
def dbC9 : DBState := { emptyDB with intents := [intentC9] }

/-- Gateway record used by the C9 witness: the gateway reports the payment
as failed and its amount (₹999) differs from the intent's (₹500). -/
def fetchedC9 : FetchedPayment :=
  { amount := 99900, currency := "INR", status := "failed", method := none
    fee := 0, tax := 0 }

/-- Witness for C9: even a gateway record reported "failed" with a
mismatched amount is recorded as CAPTURED. -/
theorem verify_payment_captures_unconditionally_witness :
    fetchedC9.status = "failed" ∧
    (fetchedC9.amount : ℚ) / 100 ≠ intentC9.amount ∧
    (∃ db' : DBState,
      verify_payment (some "order_4") (some "pay_4") (some "sig") true
          (.ok fetchedC9) dbC9 = (db', .success) ∧
      (∃ p ∈ db'.payments, p.razorpay_payment_id = "pay_4" ∧
        p.status = PaymentStatus.captured) ∧
      db'.intents.find? (fun i => i.razorpay_order_id == some "order_4") =
        some { intentC9 with status := PaymentStatus.captured }) :=
  ⟨rfl, by norm_num [fetchedC9, intentC9],
    verify_payment_captures_unconditionally "order_4" "pay_4" "sig" fetchedC9
      dbC9 intentC9 (by decide) (by decide)⟩

/-- C10: a payment webhook whose event-reported payment status is outside
{authorized, captured, failed} creates no Payment row and no ledger rows,
but overwrites the matching intent's status with PENDING — even an intent
already CAPTURED is moved back to PENDING. -/
theorem unmapped_status_resets_intent_to_pending
    (pd : PaymentData) (oid : String) (db : DBState) (intent : PaymentIntent)
    (hoid : pd.order_id = some oid)
    (hintent : db.intents.find? (fun i => i.razorpay_order_id == some oid) = some intent)
    (h1 : pd.status ≠ "authorized") (h2 : pd.status ≠ "captured")
    (h3 : pd.status ≠ "failed") :
    ∃ db' : DBState,
      process_payment_webhook pd db = (db', .success) ∧
      db'.payments = db.payments ∧
      db'.ledger = db.ledger ∧
      db'.intents.find? (fun i => i.razorpay_order_id == some oid) =
        some { intent with status := PaymentStatus.pending } := by
  have hpred := List.find?_some hintent
  have hmap : status_mapping pd.status = none := by
    simp [status_mapping, h1, h2, h3]
  simp only [process_payment_webhook, hoid, hintent, hmap, Option.getD_none]
  rw [if_neg (fun hor => hor.elim h1 h2)]
  exact ⟨_, rfl, rfl, rfl, find?_update_first _ _ _ _ hintent hpred⟩

/-- Intent used by the C10 witness: already CAPTURED. -/
def intentC10 : PaymentIntent :=
  { id := 5, razorpay_order_id := some "order_5", tenant_id := 2, amount := 500
    currency := "INR", purpose := "rent", status := .captured }

/-- Database used by the C10 witness. -/
def dbC10 : DBState := { emptyDB with intents := [intentC10] }

/-- Webhook payment record used by the C10 witness: entity status
"refunded", which the status mapping does not know. -/
def pdC10 : PaymentData :=
  { id := "pay_5", order_id := some "order_5", status := "refunded"
    amount := 50000, currency := "INR", method := none, fee := none
    tax := none }

/-- Witness for C10: a "refunded"-status event moves a CAPTURED intent back
to PENDING without creating a Payment. -/
theorem unmapped_status_resets_intent_to_pending_witness :
    intentC10.status = PaymentStatus.captured ∧
    (∃ db' : DBState,
      process_payment_webhook pdC10 dbC10 = (db', .success) ∧
      db'.payments = dbC10.payments ∧
      db'.ledger = dbC10.ledger ∧
      db'.intents.find? (fun i => i.razorpay_order_id == some "order_5") =
        some { intentC10 with status := PaymentStatus.pending }) :=
  ⟨rfl, unmapped_status_resets_intent_to_pending pdC10 "order_5" dbC10 intentC10
    rfl (by decide) (by decide) (by decide) (by decide)⟩

/-- Intent used by the C3 counterexample: already CAPTURED. -/
def intentC3 : PaymentIntent :=
  { id := 1, razorpay_order_id := some "order_1", tenant_id := 7, amount := 500
    currency := "INR", purpose := "rent", status := .captured }

/-- The payment recorded by the earlier captured event in the C3 scenario. -/
def payC3 : Payment :=
  { razorpay_payment_id := "pay_1", razorpay_order_id := "order_1"
    payment_intent_id := 1, tenant_id := 7, amount := 500, currency := "INR"
    status := .captured, method := none, fee := none, tax := none }

/-- Database used by the C3 counterexample: the captured event has been
applied (payment row and balanced ledger pair exist). -/
def dbC3 : DBState :=
  { emptyDB with
      intents := [intentC3]
      payments := [payC3]
      ledger := create_ledger_entries payC3 intentC3 }

/-- The late `authorized` event of the C3 counterexample: same order, a
fresh external payment id. -/
def pdC3 : PaymentData :=
  { id := "pay_2", order_id := some "order_1", status := "authorized"
    amount := 50000, currency := "INR", method := none, fee := none
    tax := none }

/-- C3 counterexample: an `authorized` event with a fresh payment id for an
order whose intent is already CAPTURED does not leave the status at
CAPTURED — it overwrites it with AUTHORIZED. -/
theorem captured_intent_regression_counterexample :
    intentC3.status = PaymentStatus.captured ∧
    pdC3.status = "authorized" ∧
    (process_payment_webhook pdC3 dbC3).1.intents.map PaymentIntent.status =
      [PaymentStatus.authorized] ∧
    PaymentStatus.authorized ≠ PaymentStatus.captured := by decide

/-- C3 amended: applying an `authorized` event carrying a not-yet-recorded
payment id for the same order unconditionally overwrites the intent's
recorded status with AUTHORIZED — the CAPTURED status regresses instead of
being preserved. -/
theorem authorized_event_overwrites_captured_status
    (pd : PaymentData) (oid : String) (db : DBState) (intent : PaymentIntent)
    (hoid : pd.order_id = some oid)
    (hst : pd.status = "authorized")
    (hintent : db.intents.find? (fun i => i.razorpay_order_id == some oid) = some intent)
    (_hcap : intent.status = PaymentStatus.captured)
    (hfresh : db.payments.any (fun p => p.razorpay_payment_id == pd.id) = false) :
    ∃ db' : DBState,
      process_payment_webhook pd db = (db', .success) ∧
      db'.intents.find? (fun i => i.razorpay_order_id == some oid) =
        some { intent with status := PaymentStatus.authorized } := by
  have hpred := List.find?_some hintent
  have hmap : (status_mapping pd.status).getD .pending = .authorized := by
    rw [hst]; rfl
  simp only [process_payment_webhook, hoid, hintent, hmap]
  rw [if_pos (Or.inl hst)]
  simp only [hfresh, Bool.false_eq_true, if_false]
  exact ⟨_, rfl, find?_update_first _ _ _ _ hintent hpred⟩

/-- Witness for the amended C3 theorem at the counterexample's input. -/
theorem authorized_event_overwrites_captured_status_witness :
    pdC3.status = "authorized" ∧
    intentC3.status = PaymentStatus.captured ∧
    (∃ db' : DBState,
      process_payment_webhook pdC3 dbC3 = (db', .success) ∧
      db'.intents.find? (fun i => i.razorpay_order_id == some "order_1") =
        some { intentC3 with status := PaymentStatus.authorized }) :=
  ⟨rfl, rfl, authorized_event_overwrites_captured_status pdC3 "order_1" dbC3
    intentC3 rfl rfl (by decide) rfl (by decide)⟩

/-- Webhook payment entity used by the C4 counterexample. -/
def pdC4 : PaymentData :=
  { id := "pay_9", order_id := some "order_9", status := "captured"
    amount := 30000, currency := "INR", method := none, fee := none
    tax := none }

/-- Decoded webhook body used by the C4 counterexample. -/
def whC4 : WebhookData :=
  { event := "payment.captured", payment := pdC4, subscription := { id := none } }

/-- Intent used by the C4 counterexample. -/
def intentC4 : PaymentIntent :=
  { id := 9, razorpay_order_id := some "order_9", tenant_id := 1, amount := 300
    currency := "INR", purpose := "rent", status := .pending }

/-- Database used by the C4 counterexample. -/
def dbC4 : DBState := { emptyDB with intents := [intentC4] }

/-- C4 counterexample: in a non-production configuration (the default
environment is "development"), a webhook whose signature does not match the
secret's HMAC is accepted — the request succeeds and payment state changes,
instead of being rejected with 401 and leaving state untouched. -/
theorem bad_signature_accepted_in_development_counterexample :
    verify_webhook_signature (fun _ _ => "GOODSIG") "secret" "rawbody" "BADSIG"
      = false ∧
    (razorpay_webhook (fun _ _ => "GOODSIG") "secret" false "rawbody" "BADSIG"
        (fun _ => some whC4) dbC4).2 = WebhookOutcome.success ∧
    (razorpay_webhook (fun _ _ => "GOODSIG") "secret" false "rawbody" "BADSIG"
        (fun _ => some whC4) dbC4).1.payments.length = 1 := by decide

/-- C4 amended: in a production configuration, every inbound webhook whose
signature differs from the HMAC of the raw body under the pre-shared secret
is rejected with the 401 outcome and no state of any kind is changed; in
non-production configurations signature verification is skipped entirely. -/
theorem bad_signature_rejected_in_production
    (hmac_sha256_hex : String → String → String)
    (webhook_secret payload signature : String)
    (parse : String → Option WebhookData) (db : DBState)
    (hbad : signature ≠ hmac_sha256_hex webhook_secret payload) :
    razorpay_webhook hmac_sha256_hex webhook_secret true payload signature
      parse db = (db, .unauthorized) := by
  have hv : verify_webhook_signature hmac_sha256_hex webhook_secret payload
      signature = false := by
    unfold verify_webhook_signature
    split
    · rfl
    · exact beq_eq_false_iff_ne.mpr hbad
  unfold razorpay_webhook
  rw [hv]
  rfl

/-- Witness for the amended C4 theorem at a concrete mismatched request. -/
theorem bad_signature_rejected_in_production_witness :
    ("BADSIG" : String) ≠ (fun _ _ => "GOODSIG" : String → String → String)
      "secret" "rawbody" ∧
    razorpay_webhook (fun _ _ => "GOODSIG") "secret" true "rawbody" "BADSIG"
      (fun _ => some whC4) dbC4 = (dbC4, .unauthorized) :=
  ⟨by decide, bad_signature_rejected_in_production (fun _ _ => "GOODSIG")
    "secret" "rawbody" "BADSIG" (fun _ => some whC4) dbC4 (by decide)⟩

/-- Request used by the C5 counterexample: ₹3000 rent for room "G-12". -/
def reqC5 : DummyRentRequest :=
  { tenant_id := 3, room_no := "G-12", amount := 3000 }

/-- C5 counterexample: the dummy rent endpoint creates the CAPTURED intent
and the RentPayment record, but posts no ledger entries at all (the source
leaves ledger posting as a TODO), so no cash_and_bank debit of ₹3000
exists and the ledger is not "balanced at ₹3000/₹3000". -/
theorem dummy_rent_posts_no_ledger_counterexample :
    (create_dummy_rent_payment reqC5 1 emptyDB).1.intents.map
      PaymentIntent.status = [PaymentStatus.captured] ∧
    (create_dummy_rent_payment reqC5 1 emptyDB).1.rent_payments.length = 1 ∧
    (create_dummy_rent_payment reqC5 1 emptyDB).1.ledger = [] ∧
    ¬ ∃ e ∈ (create_dummy_rent_payment reqC5 1 emptyDB).1.ledger,
        e.account = "cash_and_bank" ∧ e.debit = some 3000 := by
  refine ⟨rfl, rfl, rfl, ?_⟩
  rintro ⟨e, he, -⟩
  simp [create_dummy_rent_payment, emptyDB] at he

/-- C5 amended: the dummy rent endpoint synchronously creates an intent
marked CAPTURED and exactly one RentPayment record for the charged amount,
but posts no ledger entries — the ledger is left exactly as it was. -/
theorem dummy_rent_captures_without_ledger
    (req : DummyRentRequest) (new_intent_id : Nat) (db : DBState) :
    (create_dummy_rent_payment req new_intent_id db).1.intents.map
        PaymentIntent.status =
      db.intents.map PaymentIntent.status ++ [PaymentStatus.captured] ∧
    (create_dummy_rent_payment req new_intent_id db).1.rent_payments.length =
      db.rent_payments.length + 1 ∧
    (create_dummy_rent_payment req new_intent_id db).2.status =
      PaymentStatus.captured ∧
    (create_dummy_rent_payment req new_intent_id db).2.amount = req.amount ∧
    (create_dummy_rent_payment req new_intent_id db).1.ledger = db.ledger := by
  simp [create_dummy_rent_payment]

/-- An empty payment entity (decoded `{}`), for webhook bodies whose payload
carries only a subscription entity. -/
def pdEmpty : PaymentData :=
  { id := "", order_id := none, status := "", amount := 0, currency := ""
    method := none, fee := none, tax := none }

/-- Subscription row used by the C6 counterexample. -/
def subC6 : Subscription :=
  { razorpay_subscription_id := "sub_1", status := "active"
    total_count := some 12, paid_count := 0, remaining_count := some 12 }

/-- Charged-event webhook body used by the C6 counterexample. -/
def whC6 : WebhookData :=
  { event := "subscription.charged", payment := pdEmpty
    subscription := { id := some "sub_1" } }

/-- Database used by the C6 counterexample. -/
def dbC6 : DBState := { emptyDB with subscriptions := [subC6] }

/-- C6 counterexample: delivering the same subscription `charged` event
twice through the effective handler leaves `paid_count` at 0 — it does not
increment exactly once. -/
theorem subscription_charged_twice_counterexample :
    (process_subscription_webhook whC6
        (process_subscription_webhook whC6 dbC6).1).1.subscriptions.map
      Subscription.paid_count = [0] ∧
    (0 : Nat) ≠ 1 := by decide

/-- C6 amended: applying a subscription `charged` event twice (with the
same charge id or any other) increments `paid_count` zero times — the
effective `process_subscription_webhook` is a no-op stub, because the later
duplicate definition shadows the incrementing implementation. -/
theorem subscription_charged_twice_no_increment (wh : WebhookData)
    (db : DBState) (_hev : wh.event = "subscription.charged") :
    process_subscription_webhook wh
        (process_subscription_webhook wh db).1 = (db, .success) ∧
    (process_subscription_webhook wh
        (process_subscription_webhook wh db).1).1.subscriptions.map
      Subscription.paid_count =
      db.subscriptions.map Subscription.paid_count :=
  ⟨rfl, rfl⟩

/-- Witness for the amended C6 theorem at the counterexample's input. -/
theorem subscription_charged_twice_no_increment_witness :
    whC6.event = "subscription.charged" ∧
    (process_subscription_webhook whC6
        (process_subscription_webhook whC6 dbC6).1 = (dbC6, .success) ∧
    (process_subscription_webhook whC6
        (process_subscription_webhook whC6 dbC6).1).1.subscriptions.map
      Subscription.paid_count =
      dbC6.subscriptions.map Subscription.paid_count) :=
  ⟨rfl, subscription_charged_twice_no_increment whC6 dbC6 rfl⟩

/-- A delivery whose payment id is already recorded and whose status is
authorized/captured hits the `razorpay_payment_id` UNIQUE constraint at
commit: the state is unchanged and the endpoint answers with the 500
outcome. -/
theorem process_payment_webhook_duplicate
    (pd : PaymentData) (oid : String) (db : DBState)
    (hoid : pd.order_id = some oid)
    (hst : pd.status = "authorized" ∨ pd.status = "captured")
    (hintent : (db.intents.find?
      (fun i => i.razorpay_order_id == some oid)).isSome = true)
    (hdup : db.payments.any (fun p => p.razorpay_payment_id == pd.id) = true) :
    process_payment_webhook pd db = (db, .error) := by
  obtain ⟨intent, hi⟩ := Option.isSome_iff_exists.mp hintent
  simp only [process_payment_webhook, hoid, hi]
  rw [if_pos hst]
  simp [hdup]

/-- A first delivery (fresh payment id) of an authorized/captured event
commits the new Payment, the two ledger rows, the intent-status overwrite
and — once the response is out — the domain event. -/
theorem process_payment_webhook_fresh
    (pd : PaymentData) (oid : String) (db : DBState) (intent : PaymentIntent)
    (hoid : pd.order_id = some oid)
    (hst : pd.status = "authorized" ∨ pd.status = "captured")
    (hintent : db.intents.find? (fun i => i.razorpay_order_id == some oid) = some intent)
    (hfresh : db.payments.any (fun p => p.razorpay_payment_id == pd.id) = false) :
    process_payment_webhook pd db =
      ({ db with
          payments := db.payments ++ [mk_webhook_payment pd oid intent]
          ledger := db.ledger ++
            create_ledger_entries (mk_webhook_payment pd oid intent) intent
          intents := update_first (fun i => i.razorpay_order_id == some oid)
            (fun i => { i with status := (status_mapping pd.status).getD .pending })
            db.intents
          published := db.published ++
            [{ event_type := if (status_mapping pd.status).getD .pending = .captured
                             then "payment.succeeded" else "payment.failed"
               payment_intent_id := intent.id }] }, .success) := by
  simp only [process_payment_webhook, hoid, hintent]
  rw [if_pos hst]
  simp [hfresh]

/-- C1 amended: for every sequence of authorized/captured webhook
deliveries carrying the same external payment id for the same order,
processing creates exactly one Payment row and one balanced pair of
LedgerEntry rows; the second and later applications leave the database
unchanged — no new Payment, LedgerEntry, or domain event — but, because
the duplicate insert aborts on the UNIQUE constraint inside the generic
exception handler, they return the 500 error outcome rather than success. -/
theorem same_payment_id_processed_exactly_once
    (pid oid : String) (db0 : DBState) (intent : PaymentIntent)
    (e0 : PaymentData) (rest : List PaymentData)
    (hall : ∀ ev ∈ e0 :: rest, ev.id = pid ∧ ev.order_id = some oid ∧
      (ev.status = "authorized" ∨ ev.status = "captured"))
    (hintent : db0.intents.find? (fun i => i.razorpay_order_id == some oid) = some intent)
    (hnopay : payments_with_id pid db0 = [])
    (hnoledger : entries_with_txn ("PAY_" ++ pid) db0 = []) :
    (payments_with_id pid (process_deliveries (e0 :: rest) db0)).length = 1 ∧
    (entries_with_txn ("PAY_" ++ pid) (process_deliveries (e0 :: rest) db0)).length = 2 ∧
    debit_total (entries_with_txn ("PAY_" ++ pid) (process_deliveries (e0 :: rest) db0)) =
      credit_total (entries_with_txn ("PAY_" ++ pid) (process_deliveries (e0 :: rest) db0)) ∧
    process_deliveries (e0 :: rest) db0 = (process_payment_webhook e0 db0).1 ∧
    (∀ ev : PaymentData, ev.id = pid → ev.order_id = some oid →
      (ev.status = "authorized" ∨ ev.status = "captured") →
      process_payment_webhook ev (process_deliveries (e0 :: rest) db0) =
        (process_deliveries (e0 :: rest) db0, .error)) := by
  obtain ⟨hid0, hoid0, hst0⟩ := hall e0 (List.mem_cons_self _ _)
  have hpred := List.find?_some hintent
  have hnopay' : ∀ p ∈ db0.payments, ¬(p.razorpay_payment_id == pid) = true := by
    intro p hp
    exact List.filter_eq_nil_iff.mp hnopay p hp
  have hfresh : db0.payments.any (fun p => p.razorpay_payment_id == e0.id) = false := by
    rw [List.any_eq_false]
    intro p hp
    rw [hid0]
    exact hnopay' p hp
  have hstep1 := process_payment_webhook_fresh e0 oid db0 intent hoid0 hst0 hintent hfresh
  have hdup1 : ((process_payment_webhook e0 db0).1).payments.any
      (fun p => p.razorpay_payment_id == pid) = true := by
    rw [hstep1]
    rw [List.any_eq_true]
    exact ⟨mk_webhook_payment e0 oid intent,
      List.mem_append_right _ (List.mem_singleton.mpr rfl),
      by simp [mk_webhook_payment, hid0]⟩
  have hintent1 : ((process_payment_webhook e0 db0).1).intents.find?
      (fun i => i.razorpay_order_id == some oid) =
      some { intent with status := (status_mapping e0.status).getD .pending } := by
    rw [hstep1]
    exact find?_update_first _ _ _ _ hintent hpred
  have hstay : ∀ ev : PaymentData, ev.id = pid → ev.order_id = some oid →
      (ev.status = "authorized" ∨ ev.status = "captured") →
      process_payment_webhook ev (process_payment_webhook e0 db0).1 =
        ((process_payment_webhook e0 db0).1, .error) := by
    intro ev h1 h2 h3
    refine process_payment_webhook_duplicate ev oid _ h2 h3 ?_ ?_
    · rw [hintent1]; rfl
    · rw [h1]; exact hdup1
  have hfold : ∀ l : List PaymentData,
      (∀ ev ∈ l, ev.id = pid ∧ ev.order_id = some oid ∧
        (ev.status = "authorized" ∨ ev.status = "captured")) →
      process_deliveries l (process_payment_webhook e0 db0).1 =
        (process_payment_webhook e0 db0).1 := by
    intro l
    induction l with
    | nil => intro _; rfl
    | cons a t ih =>
      intro h
      obtain ⟨ha1, ha2, ha3⟩ := h a (List.mem_cons_self _ _)
      have hstep : process_deliveries (a :: t) (process_payment_webhook e0 db0).1 =
          process_deliveries t
            (process_payment_webhook a (process_payment_webhook e0 db0).1).1 := rfl
      rw [hstep, hstay a ha1 ha2 ha3]
      exact ih (fun ev hev => h ev (List.mem_cons_of_mem _ hev))
  have htot : process_deliveries (e0 :: rest) db0 = (process_payment_webhook e0 db0).1 := by
    have h0 : process_deliveries (e0 :: rest) db0 =
        process_deliveries rest (process_payment_webhook e0 db0).1 := rfl
    rw [h0]
    exact hfold rest (fun ev hev => hall ev (List.mem_cons_of_mem _ hev))
  refine ⟨?_, ?_, ?_, htot, ?_⟩
  · rw [htot, hstep1]
    simp only [payments_with_id] at hnopay ⊢
    rw [List.filter_append, hnopay]
    simp [mk_webhook_payment, hid0]
  · rw [htot, hstep1]
    simp only [entries_with_txn] at hnoledger ⊢
    rw [List.filter_append, hnoledger]
    simp [create_ledger_entries, mk_webhook_payment, hid0]
  · rw [htot, hstep1]
    simp only [entries_with_txn] at hnoledger ⊢
    rw [List.filter_append, hnoledger]
    simp [create_ledger_entries, mk_webhook_payment, hid0, debit_total, credit_total]
  · intro ev h1 h2 h3
    rw [htot]
    exact hstay ev h1 h2 h3

/-- Intent used by the C1 counterexample and witness. -/
def intentC1 : PaymentIntent :=
  { id := 11, razorpay_order_id := some "order_11", tenant_id := 6
    amount := 500, currency := "INR", purpose := "rent", status := .pending }

/-- Database used by the C1 counterexample and witness. -/
def dbC1 : DBState := { emptyDB with intents := [intentC1] }

/-- The captured event (₹500 = 50000 paise) delivered twice in the C1
counterexample and witness. -/
def pdC1 : PaymentData :=
  { id := "pay_11", order_id := some "order_11", status := "captured"
    amount := 50000, currency := "INR", method := none, fee := none
    tax := none }

/-- C1 counterexample: re-delivering the same captured event is not a
no-op that still returns success — the duplicate insert aborts on the
UNIQUE constraint and the endpoint answers with the 500 error outcome. -/
theorem duplicate_delivery_errors_counterexample :
    (process_payment_webhook pdC1 (process_payment_webhook pdC1 dbC1).1).2 =
      WebhookOutcome.error ∧
    WebhookOutcome.error ≠ WebhookOutcome.success := by decide

/-- Witness for the amended C1 theorem: the captured event delivered twice
yields one Payment row and one balanced ledger pair. -/
theorem same_payment_id_processed_exactly_once_witness :
    (∀ ev ∈ [pdC1, pdC1], ev.id = "pay_11" ∧ ev.order_id = some "order_11" ∧
      (ev.status = "authorized" ∨ ev.status = "captured")) ∧
    (payments_with_id "pay_11" (process_deliveries [pdC1, pdC1] dbC1)).length = 1 ∧
    (entries_with_txn ("PAY_" ++ "pay_11")
      (process_deliveries [pdC1, pdC1] dbC1)).length = 2 ∧
    debit_total (entries_with_txn ("PAY_" ++ "pay_11")
        (process_deliveries [pdC1, pdC1] dbC1)) =
      credit_total (entries_with_txn ("PAY_" ++ "pay_11")
        (process_deliveries [pdC1, pdC1] dbC1)) := by
  have h := same_payment_id_processed_exactly_once "pay_11" "order_11" dbC1
    intentC1 pdC1 [pdC1] (by decide) (by decide) (by decide) (by decide)
  exact ⟨by decide, h.1, h.2.1, h.2.2.1⟩

end PGwallah
